import Mathlib

/-!
Verification development for the media-review core implemented in
`src/src/App.tsx`: the merge/sort loader, the per-second time index, the
live classifier/model filter, the deterministic colour assignment, the
overlay scale computation, the progress/bucket-lookup synchronisation and
the play/pause mirroring to the secondary (peaks) engine.

Conventions of the shallow embedding:
* A TypeScript record flowing through the component is one Lean structure;
  optional TS fields become `Option`.
* `time` and `duration` are integer milliseconds (the spec fixes them as
  nonnegative integers), so JavaScript `Math.round(t / 1000)` becomes
  `(t + 500) / 1000` and `Math.ceil(d / 1000)` becomes `(d + 999) / 1000`
  on `Nat`.
* The float `playedSeconds` clock is embedded as `ℚ`; `Math.round` on it is
  `⌊q + 1/2⌋` (round half towards positive infinity, as in JS).
* JavaScript truthiness tests on optional numeric fields are made explicit
  (`none` and `some 0` are falsy).
* The per-second index object is a total function `Int → Option (List Pred)`;
  a missing key reads back as `none`, mirroring `undefined`.
-/

namespace FoxEnsemble

/-- One merged timeline entry, mirroring the structural record of `App.tsx`
(`IPrediction` possibly carrying the `IVideoLabel` box fields or the
`IAudioLabel` duration field). Optional TS fields are `Option`. -/
structure Pred where
  classifier : String
  time : Nat
  confidence : Option ℚ := none
  model : Option String := none
  x : Option Int := none
  y : Option Int := none
  width : Option Int := none
  height : Option Int := none
  duration : Option Nat := none
deriving DecidableEq, Repr

/-- A ground-truth entry from `props.labels` (`ILabel` variants): no
confidence and no model yet. -/
structure RawLabel where
  classifier : String
  time : Nat
  x : Option Int := none
  y : Option Int := none
  width : Option Int := none
  height : Option Int := none
  duration : Option Nat := none
deriving DecidableEq, Repr

/-- `componentDidMount`: a label is spread into a prediction record with
`model: "Ground-Truth"` and `confidence: 1.0` (App.tsx lines 82-84). -/
def labelToPred (l : RawLabel) : Pred :=
  { classifier := l.classifier, time := l.time, confidence := some 1,
    model := some "Ground-Truth", x := l.x, y := l.y, width := l.width,
    height := l.height, duration := l.duration }

/-- The sort key of `componentDidMount`: the comparator
`(a, b) => a.time - b.time` orders by ascending `time`. -/
def timeLe (a b : Pred) : Bool := a.time ≤ b.time

/-- `componentDidMount` lines 80-85: concatenate `props.predictions` with the
converted `props.labels || []` and sort ascending by `time`. JavaScript
`Array.prototype.sort` is stable (ES2019), which `List.mergeSort` reproduces. -/
def mergePreds (ps : List Pred) (ls : Option (List RawLabel)) : List Pred :=
  (ps ++ (ls.getD []).map labelToPred).mergeSort timeLe

/-- `const timeS = Math.round(p.time / 1000)` (App.tsx line 96): round half up
on a nonnegative integer millisecond count is `(t + 500) / 1000`. -/
def bucketStart (p : Pred) : Nat := (p.time + 500) / 1000

/-- Lines 98-101: `"duration" in p ? Math.ceil(p.duration / 1000) : 1`, the
number of one-second buckets the entry is pushed into. -/
def span (p : Pred) : Nat :=
  match p.duration with
  | some d => (d + 999) / 1000
  | none => 1

/-- The seconds an entry lands in: the loop of lines 102-106 pushes it at
keys `timeS + i` for `0 ≤ i < seconds`. -/
def occupies (p : Pred) (s : Int) : Bool :=
  (bucketStart p : Int) ≤ s && s < (bucketStart p : Int) + (span p : Int)

/-- The `predictionsByTime` object: integer-second key to list of entries;
`none` is a key that was never written (`undefined`). -/
abbrev TimeIdx := Int → Option (List Pred)

/-- `carry[time] = carry[time] || []; carry[time].push(p)` at one key. -/
def pushAt (m : TimeIdx) (k : Int) (p : Pred) : TimeIdx :=
  fun s => if s = k then some ((m k).getD [] ++ [p]) else m s

/-- The `for (let i = 0; i < seconds; i++)` loop of lines 102-106, pushing at
`timeS + i` for each `i` below the given bound. -/
def insertLoop (m : TimeIdx) (p : Pred) (t0 : Nat) : Nat → TimeIdx
  | 0 => m
  | n + 1 => pushAt (insertLoop m p t0 n) ((t0 : Int) + (n : Int)) p

/-- The reducer body of lines 93-108 for a single entry. -/
def insertPred (m : TimeIdx) (p : Pred) : TimeIdx :=
  insertLoop m p (bucketStart p) (span p)

/-- `predictions.reduce(..., {})` of lines 93-108: the per-second index built
from the merged list, starting from the empty object. -/
def predictionsByTime (ps : List Pred) : TimeIdx :=
  ps.foldl insertPred (fun _ => none)

/-- The state field `predictionsByTime: {}` before `componentDidMount` has
run: every lookup misses. -/
def initialPredictionsByTime : TimeIdx := fun _ => none

/-- JavaScript `Math.round` on the float `currentPlaybackTime`, embedded on
`ℚ`: round half towards positive infinity is `⌊q + 1/2⌋`. -/
def jsRound (q : ℚ) : Int := ⌊q + 1 / 2⌋

/-- Line 223-224: `predictionsByTime[Math.round(currentPlaybackTime)] || []`;
a missing key (`undefined`) falls back to the empty list. -/
def bucketLookup (m : TimeIdx) (ct : ℚ) : List Pred :=
  (m (jsRound ct)).getD []

/-- The two enable maps of the component state: `classifications` and
`models`. A JS object lookup of an unknown key is `undefined`, hence falsy,
so both are embedded as total functions defaulting to `false`. -/
structure FilterState where
  classifications : String → Bool
  models : String → Bool

/-- The expression `p.model || ""`: an absent or empty model falls back to
the empty string (the empty string is falsy in JS). -/
def jsOrEmpty (m : Option String) : String :=
  match m with
  | none => ""
  | some s => if s = "" then "" else s

/-- The filter body of lines 225-229 (and, without the `!!`, of lines
528-532): `classifications[p.classifier] && "model" in p ?
!!models[p.model || ""] : true`. By JS precedence the conditional tests the
conjunction `classifications[p.classifier] && "model" in p`, and the `else`
arm is `true`. -/
def activeFilter (fs : FilterState) (p : Pred) : Bool :=
  if fs.classifications p.classifier && p.model.isSome then
    fs.models (jsOrEmpty p.model)
  else
    true

/-- `currentPredictions` (lines 223-229): the bucket of the rounded current
playback second, filtered by `activeFilter`. -/
def currentPreds (fs : FilterState) (m : TimeIdx) (ct : ℚ) : List Pred :=
  (bucketLookup m ct).filter (activeFilter fs)

/-- The table body filter of lines 527-532, applied to the whole merged
list rather than to one bucket. -/
def tableRows (fs : FilterState) (ps : List Pred) : List Pred :=
  ps.filter fun p =>
    if fs.classifications p.classifier && p.model.isSome then
      fs.models (jsOrEmpty p.model)
    else
      true

/-- Truthiness of an optional integer field: `undefined` and `0` are falsy. -/
def jsTruthyInt (o : Option Int) : Bool :=
  match o with
  | none => false
  | some n => n ≠ 0

/-- Truthiness of the optional `duration` field. -/
def jsTruthyDur (o : Option Nat) : Bool :=
  match o with
  | none => false
  | some n => n ≠ 0

/-- The destructuring filter of lines 230-232:
`({x, y, width, height, time}) => x && y && width && height && time`. -/
def boxTruthy (p : Pred) : Bool :=
  jsTruthyInt p.x && jsTruthyInt p.y && jsTruthyInt p.width &&
    jsTruthyInt p.height && p.time != 0

/-- The destructuring filter of lines 233-235:
`({time, duration: pDuration}) => pDuration && time`. -/
def audioTruthy (p : Pred) : Bool :=
  jsTruthyDur p.duration && p.time != 0

/-- `currentVideoPredictions` (lines 230-232): box-truthy entries of the
active set, re-filtered by the classifier map. -/
def currentVideoPreds (fs : FilterState) (m : TimeIdx) (ct : ℚ) : List Pred :=
  ((currentPreds fs m ct).filter boxTruthy).filter
    fun p => fs.classifications p.classifier

/-- `currentAudioPredictions` (lines 233-235). -/
def currentAudioPreds (fs : FilterState) (m : TimeIdx) (ct : ℚ) : List Pred :=
  ((currentPreds fs m ct).filter audioTruthy).filter
    fun p => fs.classifications p.classifier

/-- The `videoPredictions` filter of `componentDidUpdate` (lines 126-129)
that selects the points handed to `Peaks.init`:
`({x, y, width, height, time}) => x && y && width && height && time`. -/
def peaksVideoFilter (p : Pred) : Bool :=
  jsTruthyInt p.x && jsTruthyInt p.y && jsTruthyInt p.width &&
    jsTruthyInt p.height && p.time != 0

/-- The points passed to the secondary engine (lines 140-145). -/
def peaksVideoPoints (ps : List Pred) : List Pred :=
  ps.filter peaksVideoFilter

/-- `hasValidBoundingBox = p.width > 0 && p.height > 0` (line 346); a
comparison against `undefined` is false in JS, hence the `getD 0`. -/
def hasValidBoundingBox (p : Pred) : Bool :=
  p.width.getD 0 > 0 && p.height.getD 0 > 0

/-- What the Konva layer draws for one entry. -/
inductive Shape
  | box
  | marker
  | audioMarker
deriving DecidableEq, Repr

/-- The overlay contents of lines 344-387: for each entry of
`currentVideoPredictions` a `Rect` when `hasValidBoundingBox` plus always a
`Path` icon, then a `Path` icon for each entry of `currentAudioPredictions`. -/
def overlayShapes (fs : FilterState) (m : TimeIdx) (ct : ℚ) :
    List (Pred × Shape) :=
  (currentVideoPreds fs m ct).flatMap
      (fun p =>
        (if hasValidBoundingBox p then [(p, Shape.box)] else []) ++
          [(p, Shape.marker)]) ++
    (currentAudioPreds fs m ct).map fun p => (p, Shape.audioMarker)

/-- Modelled from the spec: `stringToRGBA` lives in `src/colour.ts`, which the
source tree does not contain; section 4.4 describes it as a stable string
hash feeding the RGB channels, alpha fixed at `1.0`. The hash below realises
that contract; which concrete hash is used does not matter to the claims. -/
def stringHash (s : String) : Nat :=
  s.data.foldl (fun h c => (h * 31 + c.toNat) % 16777216) 7

/-- Modelled from the spec: the RGBA quadruple produced by `stringToRGBA`
with `alpha = 1`. -/
def stringToRGBA (s : String) : Nat × Nat × Nat × ℚ :=
  (stringHash s % 256, stringHash s / 256 % 256, stringHash s / 65536 % 256, 1)

/-- The string `p.classifier + p.model` of line 626: adding `undefined` to a
string in JavaScript appends the text `"undefined"`. -/
def jsConcatModel (c : String) (m : Option String) : String :=
  match m with
  | none => c ++ "undefined"
  | some s => c ++ s

/-- `predictionColor` (lines 625-626). -/
def predictionColor (p : Pred) : Nat × Nat × Nat × ℚ :=
  stringToRGBA (jsConcatModel p.classifier p.model)

/-- The four properties destructured from the internal player element
(lines 212-219); each is `Option` because the destructuring defaults only
apply to `undefined` properties. -/
structure VideoDims where
  videoWidth : Option Int := none
  videoHeight : Option Int := none
  offsetWidth : Option Int := none
  offsetHeight : Option Int := none
deriving DecidableEq, Repr

/-- Lines 212-219: `(reactPlayer && reactPlayer.getInternalPlayer()) || {}`
destructured with defaults `videoWidth = -1`, `videoHeight = -1`,
`offsetWidth = 640`, `offsetHeight = 360`. -/
def destructuredDims (ip : Option VideoDims) : Int × Int × Int × Int :=
  let o := ip.getD {}
  (o.videoWidth.getD (-1), o.videoHeight.getD (-1),
    o.offsetWidth.getD 640, o.offsetHeight.getD 360)

/-- JavaScript float division, with `none` standing for the non-finite
results (`Infinity`, `-Infinity` or `NaN`) produced by a zero divisor. -/
def jsDiv (a b : Int) : Option ℚ :=
  if b = 0 then none else some ((a : ℚ) / (b : ℚ))

/-- `const scaleX = offsetWidth / videoWidth` (line 220). -/
def scaleX (ip : Option VideoDims) : Option ℚ :=
  jsDiv (destructuredDims ip).2.2.1 (destructuredDims ip).1

/-- `const scaleY = offsetHeight / videoHeight` (line 221). -/
def scaleY (ip : Option VideoDims) : Option ℚ :=
  jsDiv (destructuredDims ip).2.2.2 (destructuredDims ip).2.1

/-- Whether the Konva `Stage` carrying the overlay is emitted by `render`:
the JSX renders it whenever `sourceUrl` is set (lines 273, 330-343); no
dimension or readiness condition guards it. -/
def stageRendered (sourceUrl : Option String) : Bool :=
  sourceUrl.isSome

/-- The slice of component state the synchroniser touches. -/
structure AppState where
  currentPlaybackTime : ℚ
  playing : Bool
deriving DecidableEq, Repr

/-- The `onProgress` callback (lines 312-314):
`this.setState({ currentPlaybackTime: playedSeconds })`. -/
def onProgress (st : AppState) (playedSeconds : ℚ) : AppState :=
  { st with currentPlaybackTime := playedSeconds }

/-- A command issued to the secondary (peaks) engine. -/
inductive SecondaryCmd
  | play
  | pause
  | seek (sec : ℚ)
deriving DecidableEq, Repr

/-- Whether a command is a seek. -/
def isSeekCmd : SecondaryCmd → Bool
  | SecondaryCmd.seek _ => true
  | _ => false

/-- The `onPause` handler (lines 317-322): when a peaks instance exists it
receives exactly `player.pause()`; otherwise nothing is sent. -/
def onPauseCmds (peak : Option Unit) : List SecondaryCmd :=
  match peak with
  | some _ => [SecondaryCmd.pause]
  | none => []

/-- The `onPlay` handler (lines 323-328): when a peaks instance exists it
receives exactly `player.play()`; otherwise nothing is sent. -/
def onPlayCmds (peak : Option Unit) : List SecondaryCmd :=
  match peak with
  | some _ => [SecondaryCmd.play]
  | none => []

/-! Concrete data used by the scenario evaluations below. -/

/-- The first scenario entry of spec section 8:
`{classifier: "violence", time: 3000, confidence: 1}`. -/
def pV : Pred := { classifier := "violence", time := 3000, confidence := some 1 }

/-- The second scenario entry of spec section 8:
`{classifier: "nudity", time: 10000, confidence: 4}`. -/
def pN : Pred := { classifier := "nudity", time := 10000, confidence := some 4 }

/-- The scenario filter state `classifierEnabled = {violence: false,
nudity: true}` with no model entries. -/
def fsDemo : FilterState := ⟨fun c => c == "nudity", fun _ => false⟩

/-- The scenario set, run through the loader (no labels supplied). -/
def predsDemo : List Pred := mergePreds [pV, pN] none

/-- A filter state with every classifier and model enabled. -/
def fsAll : FilterState := ⟨fun _ => true, fun _ => true⟩

/-- The spec's segment-placement example: `time = 7000, duration = 3000`. -/
def segDemo : Pred :=
  { classifier := "c", time := 7000, confidence := some 1, duration := some 3000 }

/-- A segment whose start time has fractional part 500 ms. -/
def segHalf : Pred :=
  { classifier := "c", time := 7500, confidence := some 1, duration := some 3000 }

/-- A point entry at the same 7500 ms instant, carrying no duration. -/
def ptHalf : Pred := { classifier := "c", time := 7500, confidence := some 1 }

/-- A label for the loader evaluation. -/
def lblDemo : RawLabel := { classifier := "gt", time := 3000 }

/-- A box-bearing entry whose `width` is `0`: per the spec a marker-only
box (`width/height may be 0 meaning no box, marker only`). -/
def ptNoBox : Pred :=
  { classifier := "c", time := 5000, confidence := some 1, x := some 10,
    y := some 10, width := some 0, height := some 5 }

/-- The index holding only `ptNoBox`. -/
def idxNoBox : TimeIdx := predictionsByTime [ptNoBox]

/-- A box-bearing entry anchored at `x = 0` with positive width and height. -/
def ptZeroX : Pred :=
  { classifier := "c", time := 5000, confidence := some 1, x := some 0,
    y := some 3, width := some 4, height := some 5 }

/-- The index holding only `ptZeroX`. -/
def idxZeroX : TimeIdx := predictionsByTime [ptZeroX]

/-- An entry carrying no `model` field. -/
def pNoModel : Pred := { classifier := "a", time := 1000, confidence := some 1 }

/-- An entry whose `model` field is present but empty. -/
def pEmptyModel : Pred :=
  { classifier := "a", time := 1000, confidence := some 1, model := some "" }

/-- An entry whose `model` field is the literal string `"undefined"`. -/
def pUndefModel : Pred :=
  { classifier := "a", time := 1000, confidence := some 1,
    model := some "undefined" }

/-- The internal player element once mounted but before `loadedmetadata`:
an `HTMLVideoElement` reports `videoWidth = 0` and `videoHeight = 0`. -/
def dimsNoMeta : VideoDims :=
  { videoWidth := some 0, videoHeight := some 0, offsetWidth := some 640,
    offsetHeight := some 360 }

/-- A state for the synchroniser evaluations. -/
def stDemo : AppState := { currentPlaybackTime := 0, playing := false }

/-! Helper lemmas about the time index and the overlay. -/

theorem occupies_iff (p : Pred) (s : Int) :
    occupies p s = true ↔
      (bucketStart p : Int) ≤ s ∧ s < (bucketStart p : Int) + (span p : Int) := by
  simp [occupies]

theorem insertLoop_getD (m : TimeIdx) (p : Pred) (t0 : Nat) (n : Nat) (s : Int) :
    ((insertLoop m p t0 n) s).getD [] =
      (m s).getD [] ++
        (if (t0 : Int) ≤ s ∧ s < (t0 : Int) + (n : Int) then [p] else []) := by
  induction n with
  | zero =>
    have h : ¬ ((t0 : Int) ≤ s ∧ s < (t0 : Int) + ((0 : Nat) : Int)) := by
      push_cast
      omega
    simp [insertLoop, h]
  | succ n ih =>
    simp only [insertLoop, pushAt]
    by_cases hs : s = (t0 : Int) + (n : Int)
    · subst hs
      have hnot : ¬ ((t0 : Int) ≤ (t0 : Int) + (n : Int) ∧
          (t0 : Int) + (n : Int) < (t0 : Int) + (n : Int)) := by omega
      have hyes : (t0 : Int) ≤ (t0 : Int) + (n : Int) ∧
          (t0 : Int) + (n : Int) < (t0 : Int) + ((n + 1 : Nat) : Int) := by
        push_cast
        omega
      rw [if_pos rfl, Option.getD_some, ih, if_neg hnot, if_pos hyes, List.append_nil]
    · rw [if_neg hs, ih]
      rcases Decidable.em ((t0 : Int) ≤ s ∧ s < (t0 : Int) + (n : Int)) with h | h
      · rw [if_pos h, if_pos (by push_cast; omega)]
      · rw [if_neg h, if_neg (by push_cast at h ⊢; omega)]

theorem insertPred_getD (m : TimeIdx) (p : Pred) (s : Int) :
    ((insertPred m p) s).getD [] =
      (m s).getD [] ++ (if occupies p s then [p] else []) := by
  rw [insertPred, insertLoop_getD]
  congr 1
  simp [occupies_iff]

theorem foldl_insertPred_getD (ps : List Pred) (m : TimeIdx) (s : Int) :
    ((ps.foldl insertPred m) s).getD [] =
      (m s).getD [] ++ ps.filter (fun p => occupies p s) := by
  induction ps generalizing m with
  | nil => simp
  | cons p ps ih =>
    rw [List.foldl_cons, ih, insertPred_getD, List.filter_cons]
    by_cases h : occupies p s
    · simp [h]
    · simp [h]

theorem predictionsByTime_getD (ps : List Pred) (s : Int) :
    ((predictionsByTime ps) s).getD [] = ps.filter (fun p => occupies p s) := by
  rw [predictionsByTime, foldl_insertPred_getD]
  rfl

theorem timeLe_trans (a b c : Pred) (h1 : timeLe a b = true)
    (h2 : timeLe b c = true) : timeLe a c = true := by
  simp only [timeLe, decide_eq_true_eq] at h1 h2 ⊢
  omega

theorem timeLe_total (a b : Pred) : (timeLe a b || timeLe b a) = true := by
  simp only [timeLe, Bool.or_eq_true, decide_eq_true_eq]
  omega

theorem jsRound_ofNat (n : Nat) : jsRound (n : ℚ) = n := by
  rw [jsRound, add_comm, Int.floor_add_nat]
  norm_num

theorem jsRound_three : jsRound 3 = 3 := by
  simpa using jsRound_ofNat 3

theorem jsRound_five : jsRound 5 = 5 := by
  simpa using jsRound_ofNat 5

theorem predsDemo_eq : predsDemo = [pV, pN] := by
  rw [predsDemo, mergePreds]
  exact List.mergeSort_of_sorted (by decide)

theorem jsTruthyInt_getD (o : Option Int) :
    jsTruthyInt o = true ↔ o.getD 0 ≠ 0 := by
  cases o <;> simp [jsTruthyInt]

theorem mem_currentVideoPreds_iff (fs : FilterState) (m : TimeIdx) (ct : ℚ)
    (p : Pred) :
    p ∈ currentVideoPreds fs m ct ↔
      p ∈ currentPreds fs m ct ∧ boxTruthy p = true ∧
        fs.classifications p.classifier = true := by
  simp only [currentVideoPreds, List.mem_filter, and_assoc]

theorem mem_currentAudioPreds_iff (fs : FilterState) (m : TimeIdx) (ct : ℚ)
    (p : Pred) :
    p ∈ currentAudioPreds fs m ct ↔
      p ∈ currentPreds fs m ct ∧ audioTruthy p = true ∧
        fs.classifications p.classifier = true := by
  simp only [currentAudioPreds, List.mem_filter, and_assoc]

theorem overlayShapes_fst_mem (fs : FilterState) (m : TimeIdx) (ct : ℚ)
    (p : Pred) (sh : Shape) (h : (p, sh) ∈ overlayShapes fs m ct) :
    (p ∈ currentVideoPreds fs m ct ∧ sh ≠ Shape.audioMarker) ∨
      (p ∈ currentAudioPreds fs m ct ∧ sh = Shape.audioMarker) := by
  simp only [overlayShapes, List.mem_append, List.mem_flatMap,
    List.mem_map] at h
  rcases h with ⟨q, hq, hand⟩ | ⟨q, hq, heq⟩
  · left
    rcases hand with h | h
    · by_cases hv : hasValidBoundingBox q = true
      · rw [if_pos hv] at h
        obtain ⟨rfl, rfl⟩ := Prod.mk.injEq .. |>.mp (List.mem_singleton.mp h)
        exact ⟨hq, by simp⟩
      · rw [if_neg hv] at h
        exact absurd h (List.not_mem_nil _)
    · obtain ⟨rfl, rfl⟩ := Prod.mk.injEq .. |>.mp (List.mem_singleton.mp h)
      exact ⟨hq, by simp⟩
  · right
    obtain ⟨rfl, rfl⟩ := Prod.mk.injEq .. |>.mp heq
    exact ⟨hq, rfl⟩

theorem overlayShapes_not_mem_video (fs : FilterState) (m : TimeIdx) (ct : ℚ)
    (p : Pred) (hb : boxTruthy p = false) (sh : Shape)
    (hsh : sh ≠ Shape.audioMarker) : (p, sh) ∉ overlayShapes fs m ct := by
  intro hmem
  rcases overlayShapes_fst_mem fs m ct p sh hmem with ⟨hv, _⟩ | ⟨_, hs⟩
  · have := (mem_currentVideoPreds_iff fs m ct p).mp hv
    simp [hb] at this
  · exact hsh hs

theorem overlayShapes_not_mem_any (fs : FilterState) (m : TimeIdx) (ct : ℚ)
    (p : Pred) (hb : boxTruthy p = false) (ha : audioTruthy p = false)
    (sh : Shape) : (p, sh) ∉ overlayShapes fs m ct := by
  intro hmem
  rcases overlayShapes_fst_mem fs m ct p sh hmem with ⟨hv, _⟩ | ⟨hau, _⟩
  · have := (mem_currentVideoPreds_iff fs m ct p).mp hv
    simp [hb] at this
  · have := (mem_currentAudioPreds_iff fs m ct p).mp hau
    simp [ha] at this

/-! The claims. -/

/-- C1: the spec says an entry is active iff its classifier is enabled and,
when it carries a model, that model is enabled; on the spec scenario
(`violence` disabled, `nudity` enabled) the active set at bucket 3 would be
empty. The code disagrees: by JS precedence the filter of lines 225-229
evaluates `(classifications[p.classifier] && "model" in p) ? ... : true`,
so the disabled, model-less `violence` entry takes the `true` arm and stays
in the active set at bucket 3, and likewise stays in the table rows. -/
theorem c1_disabled_classifier_still_active :
    fsDemo.classifications pV.classifier = false ∧
    activeFilter fsDemo pV = true ∧
    currentPreds fsDemo (predictionsByTime predsDemo) 3 = [pV] ∧
    tableRows fsDemo predsDemo = [pV, pN] := by
  have hpd : predsDemo = [pV, pN] := predsDemo_eq
  refine ⟨by decide, by decide, ?_, ?_⟩
  · rw [hpd, currentPreds, bucketLookup, jsRound_three]
    decide
  · rw [hpd]
    decide

/-- C2: the index built by `componentDidMount` places each entry exactly in
the buckets `bucketStart, ..., bucketStart + span - 1` (with `bucketStart =
round(time/1000)` and `span = ceil(duration/1000)` for duration-bearing
entries, `1` otherwise): every bucket equals the input filtered to the
entries occupying that second, each (entry, occupied-second) membership is
counted exactly once, and the spec example (`time = 7000, duration = 3000`)
occupies exactly seconds 7, 8 and 9. -/
theorem c2_time_index_lossless (ps : List Pred) (s : Int) :
    ((predictionsByTime ps) s).getD [] = ps.filter (fun p => occupies p s) ∧
    (∀ p : Pred, (((predictionsByTime ps) s).getD []).count p =
      if occupies p s then ps.count p else 0) ∧
    (∀ t : Int, occupies segDemo t = true ↔ t = 7 ∨ t = 8 ∨ t = 9) := by
  refine ⟨predictionsByTime_getD ps s, ?_, ?_⟩
  · intro p
    rw [predictionsByTime_getD]
    by_cases h : occupies p s = true
    · rw [if_pos h]
      exact @List.count_filter Pred _ _ (fun q => occupies q s) p ps h
    · rw [if_neg (by simpa using h), List.count_eq_zero.mpr]
      intro hmem
      exact h (List.mem_filter.mp hmem).2
  · intro t
    have h1 : bucketStart segDemo = 7 := by decide
    have h2 : span segDemo = 3 := by decide
    rw [occupies_iff, h1, h2]
    omega

/-- C2 witness: the characterisation evaluated on the one-segment list at
second 8. -/
theorem c2_time_index_lossless_witness :
    ((predictionsByTime [segDemo]) 8).getD [] =
      [segDemo].filter (fun p => occupies p 8) ∧
    (∀ p : Pred, (((predictionsByTime [segDemo]) 8).getD []).count p =
      if occupies p 8 then [segDemo].count p else 0) ∧
    (∀ t : Int, occupies segDemo t = true ↔ t = 7 ∨ t = 8 ∨ t = 9) :=
  c2_time_index_lossless [segDemo] 8

/-- C3 counterexample: the claim says the start bucket of a duration-bearing
entry is `floor(time/1000)`. The code computes `Math.round(p.time / 1000)`
for every entry (line 96): at `time = 7500` the segment starts in bucket 8,
not in `floor(7500/1000) = 7`, and second 7 is not occupied at all. -/
theorem c3_floor_counterexample :
    bucketStart segHalf = 8 ∧
    segHalf.time / 1000 = 7 ∧
    bucketStart segHalf ≠ segHalf.time / 1000 ∧
    occupies segHalf 7 = false := by
  decide

/-- C3 (amended): segment and point entries share the single rounding mode
`round(time/1000)`; there is no floor, and whenever the fractional part of
the time is at least 500 ms the start bucket is `floor(time/1000) + 1`,
differing from `floor(time/1000)`. -/
theorem c3_round_not_floor (p q : Pred) (ht : p.time = q.time)
    (hfrac : 500 ≤ p.time % 1000) :
    bucketStart p = bucketStart q ∧
    bucketStart p = p.time / 1000 + 1 ∧
    bucketStart p ≠ p.time / 1000 := by
  refine ⟨by simp only [bucketStart, ht], ?_, ?_⟩
  · simp only [bucketStart]
    omega
  · simp only [bucketStart]
    omega

/-- C3 witness: the amended statement at the 7500 ms segment and point. -/
theorem c3_round_not_floor_witness :
    bucketStart segHalf = bucketStart ptHalf ∧
    bucketStart segHalf = segHalf.time / 1000 + 1 ∧
    bucketStart segHalf ≠ segHalf.time / 1000 :=
  c3_round_not_floor segHalf ptHalf (by decide) (by decide)

/-- C4: the loader output is a permutation of predictions plus converted
labels (each label gaining `model = "Ground-Truth"` and `confidence = 1.0`),
sorted ascending by time, and the sort is stable: any two entries with equal
times that appear in order in the input appear in the same order in the
output. -/
theorem c4_loader_merge (ps : List Pred) (ls : Option (List RawLabel)) :
    (mergePreds ps ls).Perm (ps ++ (ls.getD []).map labelToPred) ∧
    List.Sorted (fun a b : Pred => a.time ≤ b.time) (mergePreds ps ls) ∧
    (∀ a b : Pred, a.time = b.time →
      [a, b].Sublist (ps ++ (ls.getD []).map labelToPred) →
      [a, b].Sublist (mergePreds ps ls)) ∧
    (∀ l : RawLabel,
      (labelToPred l).model = some "Ground-Truth" ∧
      (labelToPred l).confidence = some 1) := by
  refine ⟨List.mergeSort_perm _ timeLe, ?_, ?_, fun l => ⟨rfl, rfl⟩⟩
  · have h := @List.sorted_mergeSort Pred timeLe
      (fun a b c => timeLe_trans a b c) (fun a b => timeLe_total a b)
      (ps ++ (ls.getD []).map labelToPred)
    exact h.imp (by intro a b hab; simpa [timeLe] using hab)
  · intro a b hab hsub
    exact List.pair_sublist_mergeSort (fun a b c => timeLe_trans a b c)
      (fun a b => timeLe_total a b) (by simp [timeLe, hab]) hsub

/-- C4 witness: the loader contract evaluated on one prediction and one
label. -/
theorem c4_loader_merge_witness :
    (mergePreds [pV] (some [lblDemo])).Perm
      ([pV] ++ [lblDemo].map labelToPred) ∧
    List.Sorted (fun a b : Pred => a.time ≤ b.time)
      (mergePreds [pV] (some [lblDemo])) ∧
    (∀ a b : Pred, a.time = b.time →
      [a, b].Sublist ([pV] ++ [lblDemo].map labelToPred) →
      [a, b].Sublist (mergePreds [pV] (some [lblDemo]))) ∧
    (∀ l : RawLabel,
      (labelToPred l).model = some "Ground-Truth" ∧
      (labelToPred l).confidence = some 1) :=
  c4_loader_merge [pV] (some [lblDemo])

/-- C5: the spec requires the overlay projector to report not-ready and to
suppress drawing while the native dimensions are unknown or non-positive,
never letting Infinity/NaN reach the drawing layer. The code has no such
guard: with `sourceUrl` set the Konva `Stage` is always rendered, and while
metadata is not loaded (`videoWidth = videoHeight = 0`) the scale divisions
are division by zero (`none` here, `Infinity` in JS); with no player
mounted the `-1` destructuring defaults yield negative scales instead. -/
theorem c5_overlay_scale_unguarded :
    stageRendered (some "movie.mp4") = true ∧
    scaleX (some dimsNoMeta) = none ∧
    scaleY (some dimsNoMeta) = none ∧
    scaleX none = some (-640) ∧
    scaleY none = some (-360) := by
  refine ⟨rfl, by decide, by decide, ?_, ?_⟩
  · rw [scaleX]
    norm_num [destructuredDims, jsDiv]
  · rw [scaleY]
    norm_num [destructuredDims, jsDiv]

/-- C6: the spec says a zero `width`/`height` box still renders as a
location marker. The code instead drops it entirely: `ptNoBox` (width 0,
height 5) is active in bucket 5 and passes every enable filter, yet the
truthiness filter of lines 230-232 removes it, so the overlay draws neither
a box nor a marker for it. -/
theorem c6_zero_box_dropped_entirely :
    activeFilter fsAll ptNoBox = true ∧
    occupies ptNoBox 5 = true ∧
    bucketLookup idxNoBox 5 = [ptNoBox] ∧
    overlayShapes fsAll idxNoBox 5 = [] := by
  refine ⟨by decide, by decide, ?_, ?_⟩
  · rw [bucketLookup, jsRound_five]
    decide
  · rw [overlayShapes, currentVideoPreds, currentAudioPreds, currentPreds,
      bucketLookup, jsRound_five]
    decide

/-- C7 counterexample: the claim says an absent model is replaced by the
empty string, so an entry with no model and an entry with an empty-string
model would agree on `classifier ++ (model or "")` and get one color. In
the code `p.classifier + p.model` stringifies an absent model as
`"undefined"`, and the two colors differ. -/
theorem c7_empty_string_counterexample :
    pNoModel.classifier = pEmptyModel.classifier ∧
    pNoModel.model.getD "" = pEmptyModel.model.getD "" ∧
    predictionColor pNoModel ≠ predictionColor pEmptyModel := by
  decide

/-- C7 (amended): the color is a deterministic function of the
concatenation `classifier + model` with the string `"undefined"` — not the
empty string — in place of an absent model: entries agreeing on classifier
and on the model rendered that way always receive the same color. -/
theorem c7_color_deterministic (p q : Pred) (hc : p.classifier = q.classifier)
    (hm : p.model.getD "undefined" = q.model.getD "undefined") :
    predictionColor p = predictionColor q := by
  have hconcat : jsConcatModel p.classifier p.model =
      jsConcatModel q.classifier q.model := by
    cases hp : p.model <;> cases hq : q.model <;>
      simp_all [jsConcatModel]
  rw [predictionColor, predictionColor, hconcat]

/-- C7 witness: an entry with no model and an entry whose model is the
literal string `"undefined"` receive the same color. -/
theorem c7_color_deterministic_witness :
    predictionColor pNoModel = predictionColor pUndefModel :=
  c7_color_deterministic pNoModel pUndefModel rfl rfl

/-- C8: each progress tick stores `playedSeconds` as the logical current
time; the bucket queried is `Math.round(currentTime)`, and any current time
whose bucket key is absent — in particular every lookup against the initial
empty index, before `componentDidMount` has built it — yields the empty
active set instead of failing. -/
theorem c8_missing_bucket_empty (st : AppState) (played : ℚ)
    (fs : FilterState) (m : TimeIdx) (t : ℚ) (h : m (jsRound t) = none) :
    (onProgress st played).currentPlaybackTime = played ∧
    bucketLookup m t = [] ∧
    currentPreds fs m t = [] ∧
    bucketLookup initialPredictionsByTime t = [] := by
  have hb : bucketLookup m t = [] := by
    rw [bucketLookup, h]
    rfl
  exact ⟨rfl, hb, by rw [currentPreds, hb]; rfl, rfl⟩

/-- C8 witness: a tick to 2.5 s with the pre-construction empty index. -/
theorem c8_missing_bucket_empty_witness :
    (onProgress stDemo (5 / 2)).currentPlaybackTime = 5 / 2 ∧
    bucketLookup initialPredictionsByTime 42 = [] ∧
    currentPreds fsAll initialPredictionsByTime 42 = [] ∧
    bucketLookup initialPredictionsByTime 42 = [] :=
  c8_missing_bucket_empty stDemo (5 / 2) fsAll initialPredictionsByTime 42 rfl

/-- C9: the `onPause`/`onPlay` handlers of the primary engine forward only
the corresponding pause/play command to the secondary engine — never a
seek — in every state (with or without a peaks instance). -/
theorem c9_mirror_never_seeks (pk : Option Unit) :
    (onPauseCmds pk).all (fun c => !isSeekCmd c) = true ∧
    (onPlayCmds pk).all (fun c => !isSeekCmd c) = true ∧
    (onPauseCmds pk).all (fun c => c == SecondaryCmd.pause) = true ∧
    (onPlayCmds pk).all (fun c => c == SecondaryCmd.play) = true := by
  cases pk with
  | none => decide
  | some u =>
    cases u
    decide

/-- C9 witness: the handlers with a peaks instance attached. -/
theorem c9_mirror_never_seeks_witness :
    (onPauseCmds (some ())).all (fun c => !isSeekCmd c) = true ∧
    (onPlayCmds (some ())).all (fun c => !isSeekCmd c) = true ∧
    (onPauseCmds (some ())).all (fun c => c == SecondaryCmd.pause) = true ∧
    (onPlayCmds (some ())).all (fun c => c == SecondaryCmd.play) = true :=
  c9_mirror_never_seeks (some ())

/-- C10: the overlay filter tests the box fields for truthiness, not
presence: an entry whose box has `x = 0` or `y = 0` gets neither box nor
marker; a box-less, duration-less entry gets nothing at all; entries
reaching the drawing layer have all four fields present and nonzero; and
the `componentDidUpdate` filter selecting points for the secondary engine
is the same truthiness test. -/
theorem c10_truthiness_selection (fs : FilterState) (m : TimeIdx) (ct : ℚ)
    (p : Pred) :
    ((p.x = some 0 ∨ p.y = some 0) →
      (p, Shape.box) ∉ overlayShapes fs m ct ∧
      (p, Shape.marker) ∉ overlayShapes fs m ct) ∧
    (p.x = none → p.y = none → p.width = none → p.height = none →
      p.duration = none → ∀ sh : Shape, (p, sh) ∉ overlayShapes fs m ct) ∧
    (p ∈ currentVideoPreds fs m ct →
      p.x.getD 0 ≠ 0 ∧ p.y.getD 0 ≠ 0 ∧ p.width.getD 0 ≠ 0 ∧
        p.height.getD 0 ≠ 0) ∧
    (∀ q : Pred, peaksVideoFilter q = boxTruthy q) ∧
    (∀ qs : List Pred, peaksVideoPoints qs = qs.filter boxTruthy) := by
  refine ⟨?_, ?_, ?_, fun q => rfl, fun qs => rfl⟩
  · intro hx
    have hb : boxTruthy p = false := by
      rcases hx with h | h <;> simp [boxTruthy, h, jsTruthyInt]
    exact ⟨overlayShapes_not_mem_video fs m ct p hb Shape.box (by simp),
      overlayShapes_not_mem_video fs m ct p hb Shape.marker (by simp)⟩
  · intro hx hy hw hh hd sh
    have hb : boxTruthy p = false := by simp [boxTruthy, hx, jsTruthyInt]
    have ha : audioTruthy p = false := by simp [audioTruthy, hd, jsTruthyDur]
    exact overlayShapes_not_mem_any fs m ct p hb ha sh
  · intro hmem
    have hb := ((mem_currentVideoPreds_iff fs m ct p).mp hmem).2.1
    simp only [boxTruthy, Bool.and_eq_true] at hb
    obtain ⟨⟨⟨⟨hx, hy⟩, hw⟩, hh⟩, _⟩ := hb
    exact ⟨(jsTruthyInt_getD p.x).mp hx, (jsTruthyInt_getD p.y).mp hy,
      (jsTruthyInt_getD p.width).mp hw, (jsTruthyInt_getD p.height).mp hh⟩

/-- C10 witness: the box anchored at `x = 0` with positive width and height
is in its bucket with every filter enabled, yet neither its box nor its
marker is drawn. -/
theorem c10_truthiness_selection_witness :
    (ptZeroX, Shape.box) ∉ overlayShapes fsAll idxZeroX 5 ∧
    (ptZeroX, Shape.marker) ∉ overlayShapes fsAll idxZeroX 5 :=
  (c10_truthiness_selection fsAll idxZeroX 5 ptZeroX).1 (Or.inl rfl)

end FoxEnsemble
